import Mathlib

/-!
Shallow embedding of the user/admin lifecycle use-case of
stockfolioofficial/back-editfolio (src/user/usecase/ucase.go), together with
the fragments of the `domain` package it relies on.

Modelling conventions:
* UUIDs are modelled as `Nat` (the zero UUID is `0`).
* Repository and adapter calls are oracles: each use-case function takes the
  outcome of every external call it makes as an explicit parameter of type
  `Except Nat α`.  The `Nat` payload stands for an arbitrary infrastructure
  error (a GORM or adapter error); such errors are never one of the domain
  sentinel values `ItemNotFound`, `ItemAlreadyExist`, `UserWrongPassword`,
  which only the use-case layer itself produces, so they are embedded into
  `GoErr` through the `other` constructor.
* `errgroup` fan-out/join (`g.Wait()`) returns the first error of the two
  concurrently issued operations; the embedding resolves the scheduling
  nondeterminism by inspecting the user-save outcome first.  The claims
  settled here only depend on "some error" versus "no error", never on which
  of the two errors is reported.
* Persistence is a `Store` (lists of users and managers); `Save` is the
  upsert of §6 of the spec, and `Transaction` applies the writes of its body
  to the store only when the body succeeds.
-/

set_option autoImplicit false

namespace EditFolio

/-- Roles of the `domain` package: Customer, Admin, SuperAdmin. -/
inductive UserRole where
  | customer
  | admin
  | superAdmin
  deriving DecidableEq, Repr

/-- Modelled from the spec: the `domain.User` entity is not under `src/`.
Per §3 a user holds a unique id (UUID, here `Nat`), a username, an opaque
credential, a role and a soft-delete flag. -/
structure User where
  id : Nat
  username : String
  password : String
  role : UserRole
  deleted : Bool
  deriving DecidableEq, Repr

/-- Modelled from the spec: the `domain.Manager` entity is not under `src/`.
Per §3 a manager holds the associated user id, display name, nickname and a
username mirror. -/
structure Manager where
  userId : Nat
  name : String
  nickname : String
  username : String
  deriving DecidableEq, Repr

/-- The domain error sentinels of §7 (`ItemNotFound`, `ItemAlreadyExist`,
`UserWrongPassword`), plus `other` for every infrastructure error coming out
of a repository or the token adapter. -/
inductive GoErr where
  | itemNotFound
  | itemAlreadyExist
  | userWrongPassword
  | other (n : Nat)
  deriving DecidableEq, Repr

/-- Embeds the outcome of an external call (`Except Nat α`) into the optional
user pointer the Go code receives: on an infrastructure error the returned
pointer is nil. -/
def ptrOf {α : Type} (r : Except Nat (Option α)) : Option α :=
  match r with
  | .ok u => u
  | .error _ => none

/-- Modelled from the spec: `domain.User.ComparePassword` is not under
`src/`.  The glossary treats the credential as an opaque secret that is
"compared, never read back"; the comparison is modelled as equality with the
stored credential. -/
def User.ComparePassword (u : User) (pw : String) : Bool :=
  u.password == pw

/-- Modelled from the spec: `domain.User.UpdatePassword` is not under
`src/`.  §4.4: "the credential is overwritten". -/
def User.UpdatePassword (u : User) (pw : String) : User :=
  { u with password := pw }

/-- Modelled from the spec: `domain.User.IsDeleted` is not under `src/`.
§3: soft-delete flag; glossary: "marking a record inactive without removing
it from storage". -/
def User.IsDeleted (u : User) : Bool :=
  u.deleted

/-- Modelled from the spec: `domain.User.Delete` is not under `src/`.
§4.6: "the entity is marked soft-deleted". -/
def User.Delete (u : User) : User :=
  { u with deleted := true }

/-- Modelled from the spec: `domain.User.IsAdmin` is not under `src/`.
§4.6: delete-admin requires the target to "have the Admin role". -/
def User.IsAdmin (u : User) : Bool :=
  u.role == .admin

/-- Modelled from the spec: `domain.User.IsCustomer` is not under `src/`.
§4.6 requires the Customer role; §3 says "a deleted user is excluded from
active lookups by business rules (not necessarily by storage)" and §8 says a
deleted entity is "excluded from deletable Customer set", so the business
predicate rejects soft-deleted users. -/
def User.IsCustomer (u : User) : Bool :=
  u.role == .customer && !u.deleted

/-- Modelled from the spec: `domain.ExistsAdmin` is not under `src/`.
§4.4: the looked-up user "must exist and have Admin-or-above role", the
helper predicate the spec calls "is admin-like". -/
def ExistsAdmin : Option User → Bool
  | none => false
  | some u => u.role == .admin || u.role == .superAdmin

/-- Modelled from the spec: `domain.CreateUser` is not under `src/`.
§4.1/§4.2: creates a User with the given role and username=email; the fresh
UUID produced by the generator is passed in as `genId`. -/
def CreateUser (role : UserRole) (username : String) (genId : Nat) : User :=
  { id := genId, username := username, password := "", role := role, deleted := false }

/-- `createUser` of ucase.go: `domain.CreateUser` followed by
`UpdatePassword` with the initial credential. -/
def createUser (role : UserRole) (username password : String) (genId : Nat) : User :=
  (CreateUser role username genId).UpdatePassword password

/-- Modelled from the spec: `domain.CreateManager` is not under `src/`.
§4.2: an associated Manager(name, nickname, username=email) referencing the
new user. -/
def CreateManager (user : User) (name nickname : String) : Manager :=
  { userId := user.id, name := name, nickname := nickname, username := user.username }

/-- Modelled from the spec: `domain.User.UpdateManagerInfo` is not under
`src/`.  §4.5: "Apply username/name/nickname ... to both the User and
Manager views". -/
def UpdateManagerInfo (u : User) (m : Manager) (username name nickname : String) :
    User × Manager :=
  ({ u with username := username },
   { m with name := name, nickname := nickname, username := username })

/-- The persistence store the repositories act on: one row list per table. -/
structure Store where
  users : List User
  managers : List Manager
  deriving DecidableEq, Repr

/-- `UserRepository.GetById`, modelled from the spec (§6:
`GetById(id) -> Entity|absent`).  Per §3 storage does not necessarily
exclude soft-deleted rows, so the lookup returns the row as stored. -/
def Store.getById (st : Store) (id : Nat) : Option User :=
  st.users.find? (fun v => v.id == id)

/-- `ManagerRepository.GetById`, modelled from the spec (§6). -/
def Store.getManagerById (st : Store) (id : Nat) : Option Manager :=
  st.managers.find? (fun v => v.userId == id)

/-- `UserRepository.Save`, modelled from the spec (§6: "upsert semantics:
conflicting unique key overwrites all columns"), keyed by id. -/
def Store.saveUser (st : Store) (u : User) : Store :=
  if st.users.any (fun v => v.id == u.id) then
    { st with users := st.users.map (fun v => if v.id == u.id then u else v) }
  else
    { st with users := st.users ++ [u] }

/-- `ManagerRepository.Save`, modelled from the spec (§6), keyed by the
associated user id. -/
def Store.saveManager (st : Store) (m : Manager) : Store :=
  if st.managers.any (fun v => v.userId == m.userId) then
    { st with managers := st.managers.map (fun v => if v.userId == m.userId then m else v) }
  else
    { st with managers := st.managers ++ [m] }

/-! ### Use-case functions (ucase.go) -/

/-- Result of a create flow: the returned id and error. -/
structure CreateResult where
  newId : Nat
  err : Option GoErr
  deriving DecidableEq, Repr

/-- Result of `CreateAdminUser`, also recording whether `Transaction` ran and
how many `Save` calls were issued inside it. -/
structure CreateAdminResult where
  newId : Nat
  err : Option GoErr
  txRan : Bool
  saveAttempts : Nat
  deriving DecidableEq, Repr

/-- Result of a single-entity update/delete flow: the error and the entity
passed to `userRepo.Save`, when `Save` was invoked. -/
structure UpdateResult where
  err : Option GoErr
  savedUser : Option User
  deriving DecidableEq, Repr

/-- Result of the admin-info flows: the error and the entities passed to the
two concurrent `Save` calls, when they were issued. -/
structure InfoResult where
  err : Option GoErr
  savedUser : Option User
  savedManager : Option Manager
  deriving DecidableEq, Repr

/-- Result of `SignInUser`: token, error, and how often the token adapter's
`Generate` was invoked. -/
structure SignInResult where
  token : String
  err : Option GoErr
  tokenCalls : Nat
  deriving DecidableEq, Repr

/-- `ucase.CreateCustomerUser` (ucase.go:34).  Builds the customer user from
email/mobile, saves it inside a transaction, and returns `user.Id`
afterwards whether or not the transaction succeeded.  `genId` is the UUID
produced for the new user and `saveRes` the outcome of the transactional
save. -/
def CreateCustomerUser (genId : Nat) (email mobile : String)
    (saveRes : Except Nat Unit) (st : Store) : CreateResult × Store :=
  let user := createUser .customer email mobile genId
  match saveRes with
  | .error n => ({ newId := user.id, err := some (.other n) }, st)
  | .ok _ => ({ newId := user.id, err := none }, st.saveUser user)

/-- `ucase.CreateAdminUser` (ucase.go:208).  Duplicate check by username,
then user + manager creation, then the two saves issued concurrently inside
one transaction (`managerRepo.With(ur)` joins the same transaction); the
transaction commits both writes only when neither save fails.  `lookupRes`
is the outcome of `GetByUsername(email)`, `genId` the fresh UUID, `s1`/`s2`
the outcomes of the user/manager saves. -/
def CreateAdminUser (lookupRes : Except Nat (Option User)) (genId : Nat)
    (name email password nickname : String) (s1 s2 : Except Nat Unit)
    (st : Store) : CreateAdminResult × Store :=
  let email? := ptrOf lookupRes
  match email? with
  | some _ => ({ newId := 0, err := some .itemAlreadyExist, txRan := false, saveAttempts := 0 }, st)
  | none =>
    let user := createUser .admin email password genId
    let manager := CreateManager user name nickname
    let txErr : Option Nat :=
      match s1 with
      | .error n => some n
      | .ok _ => match s2 with | .error n => some n | .ok _ => none
    match txErr with
    | some n =>
      ({ newId := user.id, err := some (.other n), txRan := true, saveAttempts := 2 }, st)
    | none =>
      ({ newId := user.id, err := none, txRan := true, saveAttempts := 2 },
       (st.saveUser user).saveManager manager)

/-- `ucase.SignInUser` (ucase.go:169).  Lookup by username; absent user
fails with `ItemNotFound`, credential mismatch with `UserWrongPassword`;
on a match the token adapter is invoked once and its token or error is
returned unchanged. -/
def SignInUser (lookupRes : Except Nat (Option User)) (password : String)
    (tokenGen : User → Except Nat String) : SignInResult :=
  match lookupRes with
  | .error n => { token := "", err := some (.other n), tokenCalls := 0 }
  | .ok none => { token := "", err := some .itemNotFound, tokenCalls := 0 }
  | .ok (some user) =>
    if user.ComparePassword password then
      match tokenGen user with
      | .ok t => { token := t, err := none, tokenCalls := 1 }
      | .error n => { token := "", err := some (.other n), tokenCalls := 1 }
    else
      { token := "", err := some .userWrongPassword, tokenCalls := 0 }

/-- `ucase.UpdateAdminPassword` (ucase.go:49).  The error of `GetById` is
not inspected (a nil user, whatever the cause, fails the `ExistsAdmin`
guard); then the old password must match before the credential is
overwritten and saved. -/
def UpdateAdminPassword (lookupRes : Except Nat (Option User))
    (oldPassword newPassword : String) (saveRes : Except Nat Unit) : UpdateResult :=
  let user? := ptrOf lookupRes
  match user? with
  | none => { err := some .itemNotFound, savedUser := none }
  | some user =>
    if !ExistsAdmin (some user) then
      { err := some .itemNotFound, savedUser := none }
    else if !user.ComparePassword oldPassword then
      { err := some .userWrongPassword, savedUser := none }
    else
      let user' := user.UpdatePassword newPassword
      { err := match saveRes with | .ok _ => none | .error n => some (.other n),
        savedUser := some user' }

/-- `ucase.DeleteCustomerUser` (ucase.go:193).  The error of `GetById` is
not inspected; a nil user or one failing `IsCustomer` yields
`ItemNotFound`, otherwise the user is soft-deleted and saved. -/
def DeleteCustomerUser (lookupRes : Except Nat (Option User))
    (saveRes : Except Nat Unit) : UpdateResult :=
  let user? := ptrOf lookupRes
  match user? with
  | none => { err := some .itemNotFound, savedUser := none }
  | some user =>
    if !user.IsCustomer then
      { err := some .itemNotFound, savedUser := none }
    else
      { err := match saveRes with | .ok _ => none | .error n => some (.other n),
        savedUser := some user.Delete }

/-- `ucase.DeleteAdminUser` (ucase.go:273).  The error of `GetById` is not
inspected; a nil user, an already soft-deleted one, or one failing `IsAdmin`
yields `ItemNotFound`, otherwise the user is soft-deleted and saved. -/
def DeleteAdminUser (lookupRes : Except Nat (Option User))
    (saveRes : Except Nat Unit) : UpdateResult :=
  let user? := ptrOf lookupRes
  match user? with
  | none => { err := some .itemNotFound, savedUser := none }
  | some user =>
    if user.IsDeleted || !user.IsAdmin then
      { err := some .itemNotFound, savedUser := none }
    else
      { err := match saveRes with | .ok _ => none | .error n => some (.other n),
        savedUser := some user.Delete }

/-- `ucase.UpdateAdminInfo` (ucase.go:68).  `byUsername` is the outcome of
`GetByUsername(ui.Username)`, `byId` of `GetById(ui.UserId)` (consulted only
when the username lookup yielded nothing), `loadRes` of
`user.LoadManagerInfo` (the manager association fetched for the user, per
§4.5 of the spec; `domain.User.LoadManagerInfo` is not under `src/`), and
`s1`/`s2` the outcomes of the two concurrent non-transactional saves. -/
def UpdateAdminInfo (userId : Nat) (username name nickname : String)
    (byUsername : Except Nat (Option User)) (byId : Except Nat (Option User))
    (loadRes : Except Nat Manager) (s1 s2 : Except Nat Unit) : InfoResult :=
  match byUsername with
  | .error n => { err := some (.other n), savedUser := none, savedManager := none }
  | .ok exists? =>
    let conflict : Bool :=
      match exists? with
      | some ex => !(ex.id == userId)
      | none => false
    if conflict then
      { err := some .itemAlreadyExist, savedUser := none, savedManager := none }
    else
      let userRes : Except Nat (Option User) :=
        match exists? with
        | some ex => .ok (some ex)
        | none => byId
      match userRes with
      | .error n => { err := some (.other n), savedUser := none, savedManager := none }
      | .ok user? =>
        if !ExistsAdmin user? then
          { err := some .itemNotFound, savedUser := none, savedManager := none }
        else
          match user? with
          | none => { err := some .itemNotFound, savedUser := none, savedManager := none }
          | some user =>
            match loadRes with
            | .error n => { err := some (.other n), savedUser := none, savedManager := none }
            | .ok manager =>
              let um := UpdateManagerInfo user manager username name nickname
              { err :=
                  match s1 with
                  | .error n => some (.other n)
                  | .ok _ => match s2 with | .error n => some (.other n) | .ok _ => none,
                savedUser := some um.1,
                savedManager := some um.2 }

/-- `ucase.ForceUpdateAdminInfoBySuperAdmin` (ucase.go:116).  Identical to
`UpdateAdminInfo` except that the target's password is overwritten (with no
old-password check) before the manager info is applied. -/
def ForceUpdateAdminInfoBySuperAdmin (userId : Nat)
    (username name nickname password : String)
    (byUsername : Except Nat (Option User)) (byId : Except Nat (Option User))
    (loadRes : Except Nat Manager) (s1 s2 : Except Nat Unit) : InfoResult :=
  match byUsername with
  | .error n => { err := some (.other n), savedUser := none, savedManager := none }
  | .ok admin? =>
    let conflict : Bool :=
      match admin? with
      | some ad => !(ad.id == userId)
      | none => false
    if conflict then
      { err := some .itemAlreadyExist, savedUser := none, savedManager := none }
    else
      let userRes : Except Nat (Option User) :=
        match admin? with
        | some ad => .ok (some ad)
        | none => byId
      match userRes with
      | .error n => { err := some (.other n), savedUser := none, savedManager := none }
      | .ok user? =>
        if !ExistsAdmin user? then
          { err := some .itemNotFound, savedUser := none, savedManager := none }
        else
          match user? with
          | none => { err := some .itemNotFound, savedUser := none, savedManager := none }
          | some user =>
            let user1 := user.UpdatePassword password
            match loadRes with
            | .error n => { err := some (.other n), savedUser := none, savedManager := none }
            | .ok manager =>
              let um := UpdateManagerInfo user1 manager username name nickname
              { err :=
                  match s1 with
                  | .error n => some (.other n)
                  | .ok _ => match s2 with | .error n => some (.other n) | .ok _ => none,
                savedUser := some um.1,
                savedManager := some um.2 }

/-- `DeleteCustomerUser` run against the store: `GetById` reads the stored
row and a successful soft-delete is saved back. -/
def DeleteCustomerUserS (st : Store) (id : Nat) : Option GoErr × Store :=
  let r := DeleteCustomerUser (.ok (st.getById id)) (.ok ())
  match r.savedUser with
  | some u => (r.err, st.saveUser u)
  | none => (r.err, st)

/-- `DeleteAdminUser` run against the store: `GetById` reads the stored row
and a successful soft-delete is saved back. -/
def DeleteAdminUserS (st : Store) (id : Nat) : Option GoErr × Store :=
  let r := DeleteAdminUser (.ok (st.getById id)) (.ok ())
  match r.savedUser with
  | some u => (r.err, st.saveUser u)
  | none => (r.err, st)

/-! ### Helper lemmas about the store -/

/-- If a list has an element satisfying `p`, overwriting every satisfying
element with `a` (where `p a` holds) makes `find?` return `a`. -/
theorem find?_map_overwrite {α : Type} (p : α → Bool) (a : α) (ha : p a = true) :
    ∀ (l : List α) (w : α), l.find? p = some w →
      (l.map (fun v => if p v then a else v)).find? p = some a := by
  intro l
  induction l with
  | nil => intro w h; simp [List.find?] at h
  | cons x xs ih =>
    intro w h
    cases hx : p x with
    | true => simp [List.find?, hx, ha]
    | false =>
      simp only [List.find?, hx] at h
      simp [List.find?, hx, ih w h]

/-- If no element of a list satisfies `p`, appending `a` (where `p a` holds)
makes `find?` return `a`. -/
theorem find?_append_of_none {α : Type} (p : α → Bool) (a : α) (ha : p a = true) :
    ∀ l : List α, l.find? p = none → (l ++ [a]).find? p = some a := by
  intro l
  induction l with
  | nil => intro _; simp [List.find?, ha]
  | cons x xs ih =>
    intro h
    cases hx : p x with
    | true => simp [List.find?, hx] at h
    | false =>
      simp only [List.find?, hx] at h
      simp [List.find?, hx, ih h]

/-- A successful `find?` forces `any` to be true. -/
theorem any_of_find?_eq_some {α : Type} (p : α → Bool) :
    ∀ (l : List α) (w : α), l.find? p = some w → l.any p = true := by
  intro l
  induction l with
  | nil => intro w h; simp [List.find?] at h
  | cons x xs ih =>
    intro w h
    cases hx : p x with
    | true => simp [hx]
    | false =>
      simp only [List.find?, hx] at h
      simp [hx, ih w h]

/-- A failed `find?` forces `any` to be false. -/
theorem any_of_find?_eq_none {α : Type} (p : α → Bool) :
    ∀ l : List α, l.find? p = none → l.any p = false := by
  intro l
  induction l with
  | nil => intro _; simp
  | cons x xs ih =>
    intro h
    cases hx : p x with
    | true => simp [List.find?, hx] at h
    | false =>
      simp only [List.find?, hx] at h
      simp [hx, ih h]

/-- After an upsert of `u`, looking up `u.id` returns `u`. -/
theorem Store.getById_saveUser (st : Store) (u : User) :
    (st.saveUser u).getById u.id = some u := by
  unfold Store.saveUser Store.getById
  cases h : st.users.find? (fun v => v.id == u.id) with
  | some w =>
    rw [if_pos (any_of_find?_eq_some _ _ w h)]
    exact find?_map_overwrite _ u (by simp) st.users w h
  | none =>
    rw [if_neg (by rw [any_of_find?_eq_none _ _ h]; exact Bool.false_ne_true)]
    exact find?_append_of_none _ u (by simp) st.users h

/-- After an upsert of `m`, looking up `m.userId` returns `m`. -/
theorem Store.getManagerById_saveManager (st : Store) (m : Manager) :
    (st.saveManager m).getManagerById m.userId = some m := by
  unfold Store.saveManager Store.getManagerById
  cases h : st.managers.find? (fun v => v.userId == m.userId) with
  | some w =>
    rw [if_pos (any_of_find?_eq_some _ _ w h)]
    exact find?_map_overwrite _ m (by simp) st.managers w h
  | none =>
    rw [if_neg (by rw [any_of_find?_eq_none _ _ h]; exact Bool.false_ne_true)]
    exact find?_append_of_none _ m (by simp) st.managers h

/-- Saving a manager does not touch the user table. -/
theorem Store.users_saveManager (st : Store) (m : Manager) :
    (st.saveManager m).users = st.users := by
  unfold Store.saveManager
  split <;> rfl

/-! ### Claim theorems -/

/-- C2: when the email is the username of an existing user (the username
lookup succeeds and returns that user), `CreateAdminUser` fails with
`ItemAlreadyExist`, never opens the transaction, issues no `Save`, and
leaves the store untouched. -/
theorem createAdminUser_duplicate_email_no_writes
    (ex : User) (genId : Nat) (name email password nickname : String)
    (s1 s2 : Except Nat Unit) (st : Store) :
    CreateAdminUser (.ok (some ex)) genId name email password nickname s1 s2 st =
      ({ newId := 0, err := some .itemAlreadyExist, txRan := false, saveAttempts := 0 }, st) :=
  rfl

/-- C9: in `UpdateAdminPassword`, `DeleteCustomerUser` and
`DeleteAdminUser` an error of the `GetById` lookup is discarded: the guard
sees a nil user and the caller receives `ItemNotFound` instead of the
repository error, exactly the outcome of a lookup that found nothing. -/
theorem getById_error_masked_as_not_found
    (n : Nat) (oldPw newPw : String) (sv : Except Nat Unit) :
    (UpdateAdminPassword (.error n) oldPw newPw sv).err = some .itemNotFound ∧
    (DeleteCustomerUser (.error n) sv).err = some .itemNotFound ∧
    (DeleteAdminUser (.error n) sv).err = some .itemNotFound ∧
    UpdateAdminPassword (.error n) oldPw newPw sv = UpdateAdminPassword (.ok none) oldPw newPw sv ∧
    DeleteCustomerUser (.error n) sv = DeleteCustomerUser (.ok none) sv ∧
    DeleteAdminUser (.error n) sv = DeleteAdminUser (.ok none) sv :=
  ⟨rfl, rfl, rfl, rfl, rfl, rfl⟩

/-- C3: `SignInUser` returns `ItemNotFound` for an unknown username and
`UserWrongPassword` for a failed credential compare, invoking the token
adapter in neither case; on a successful compare it invokes the adapter
exactly once and returns its token or error unchanged. -/
theorem signInUser_cases
    (pw1 : String) (tg1 : User → Except Nat String)
    (u2 : User) (pw2 : String) (tg2 : User → Except Nat String)
    (h2 : u2.ComparePassword pw2 = false)
    (u3 : User) (pw3 : String) (tg3 : User → Except Nat String)
    (h3 : u3.ComparePassword pw3 = true) :
    SignInUser (.ok none) pw1 tg1 =
        { token := "", err := some .itemNotFound, tokenCalls := 0 } ∧
    SignInUser (.ok (some u2)) pw2 tg2 =
        { token := "", err := some .userWrongPassword, tokenCalls := 0 } ∧
    (SignInUser (.ok (some u3)) pw3 tg3).tokenCalls = 1 ∧
    (∀ t, tg3 u3 = .ok t →
      SignInUser (.ok (some u3)) pw3 tg3 = { token := t, err := none, tokenCalls := 1 }) ∧
    (∀ n, tg3 u3 = .error n →
      SignInUser (.ok (some u3)) pw3 tg3 =
        { token := "", err := some (.other n), tokenCalls := 1 }) := by
  refine ⟨rfl, by simp [SignInUser, h2], ?_, ?_, ?_⟩
  · cases hg : tg3 u3 <;> simp [SignInUser, h3, hg]
  · intro t ht; simp [SignInUser, h3, ht]
  · intro n hn; simp [SignInUser, h3, hn]

/-- Closed witness for `signInUser_cases`: concrete wrong-password and
matching-password sign-ins. -/
theorem signInUser_cases_witness :
    let u : User := { id := 1, username := "a@b.c", password := "a", role := .admin, deleted := false }
    let tg : User → Except Nat String := fun _ => .ok "tok"
    u.ComparePassword "b" = false ∧ u.ComparePassword "a" = true ∧
    SignInUser (.ok (some u)) "b" tg =
      { token := "", err := some .userWrongPassword, tokenCalls := 0 } ∧
    SignInUser (.ok (some u)) "a" tg = { token := "tok", err := none, tokenCalls := 1 } := by
  refine ⟨by decide, by decide, ?_, ?_⟩
  · exact (signInUser_cases "x" (fun _ => .ok "tok")
      { id := 1, username := "a@b.c", password := "a", role := .admin, deleted := false }
      "b" (fun _ => .ok "tok") (by decide)
      { id := 1, username := "a@b.c", password := "a", role := .admin, deleted := false }
      "a" (fun _ => .ok "tok") (by decide)).2.1
  · exact (signInUser_cases "x" (fun _ => .ok "tok")
      { id := 1, username := "a@b.c", password := "a", role := .admin, deleted := false }
      "b" (fun _ => .ok "tok") (by decide)
      { id := 1, username := "a@b.c", password := "a", role := .admin, deleted := false }
      "a" (fun _ => .ok "tok") (by decide)).2.2.2.1 "tok" rfl

/-- C6: `UpdateAdminPassword` fails with `ItemNotFound` when the lookup
finds nothing or a non-admin-like user, and with `UserWrongPassword` when
the old password does not compare; in all three cases no `Save` occurs. -/
theorem updateAdminPassword_failure_paths
    (oldPw newPw : String) (sv : Except Nat Unit)
    (u : User) (hnotadm : ExistsAdmin (some u) = false)
    (v : User) (hadm : ExistsAdmin (some v) = true)
    (hcmp : v.ComparePassword oldPw = false) :
    UpdateAdminPassword (.ok none) oldPw newPw sv =
      { err := some .itemNotFound, savedUser := none } ∧
    UpdateAdminPassword (.ok (some u)) oldPw newPw sv =
      { err := some .itemNotFound, savedUser := none } ∧
    UpdateAdminPassword (.ok (some v)) oldPw newPw sv =
      { err := some .userWrongPassword, savedUser := none } := by
  refine ⟨rfl, ?_, ?_⟩
  · simp [UpdateAdminPassword, ptrOf, hnotadm]
  · simp [UpdateAdminPassword, ptrOf, hadm, hcmp]

/-- Closed witness for `updateAdminPassword_failure_paths`: a customer user
and an admin with a different credential. -/
theorem updateAdminPassword_failure_paths_witness :
    let u : User := { id := 1, username := "c", password := "p", role := .customer, deleted := false }
    let v : User := { id := 2, username := "a", password := "q", role := .admin, deleted := false }
    ExistsAdmin (some u) = false ∧ ExistsAdmin (some v) = true ∧
    v.ComparePassword "p" = false ∧
    UpdateAdminPassword (.ok (some u)) "p" "r" (.ok ()) =
      { err := some .itemNotFound, savedUser := none } ∧
    UpdateAdminPassword (.ok (some v)) "p" "r" (.ok ()) =
      { err := some .userWrongPassword, savedUser := none } := by
  refine ⟨by decide, by decide, by decide, ?_, ?_⟩
  · exact (updateAdminPassword_failure_paths "p" "r" (.ok ())
      { id := 1, username := "c", password := "p", role := .customer, deleted := false }
      (by decide)
      { id := 2, username := "a", password := "q", role := .admin, deleted := false }
      (by decide) (by decide)).2.1
  · exact (updateAdminPassword_failure_paths "p" "r" (.ok ())
      { id := 1, username := "c", password := "p", role := .customer, deleted := false }
      (by decide)
      { id := 2, username := "a", password := "q", role := .admin, deleted := false }
      (by decide) (by decide)).2.2

/-- C5 (amended): for an existing admin-like user, `UpdateAdminPassword`
with the correct old password and a new password different from the old one
overwrites the credential, the updated entity is saved, a subsequent
compare with the new password succeeds and with the old password fails. -/
theorem updateAdminPassword_rotates_credential
    (u : User) (oldPw newPw : String)
    (hadm : ExistsAdmin (some u) = true)
    (hold : u.ComparePassword oldPw = true)
    (hne : oldPw ≠ newPw) :
    UpdateAdminPassword (.ok (some u)) oldPw newPw (.ok ()) =
      { err := none, savedUser := some (u.UpdatePassword newPw) } ∧
    (u.UpdatePassword newPw).ComparePassword newPw = true ∧
    (u.UpdatePassword newPw).ComparePassword oldPw = false := by
  refine ⟨?_, ?_, ?_⟩
  · simp [UpdateAdminPassword, ptrOf, hadm, hold]
  · simp [User.UpdatePassword, User.ComparePassword]
  · simp [User.UpdatePassword, User.ComparePassword]
    exact fun h => hne h.symm

/-- Closed witness for `updateAdminPassword_rotates_credential`. -/
theorem updateAdminPassword_rotates_credential_witness :
    let u : User := { id := 1, username := "a", password := "old", role := .superAdmin, deleted := false }
    ExistsAdmin (some u) = true ∧ u.ComparePassword "old" = true ∧ "old" ≠ "new" ∧
    UpdateAdminPassword (.ok (some u)) "old" "new" (.ok ()) =
      { err := none, savedUser := some (u.UpdatePassword "new") } ∧
    (u.UpdatePassword "new").ComparePassword "new" = true ∧
    (u.UpdatePassword "new").ComparePassword "old" = false := by
  refine ⟨by decide, by decide, by decide, ?_⟩
  exact (updateAdminPassword_rotates_credential
    { id := 1, username := "a", password := "old", role := .superAdmin, deleted := false }
    "old" "new" (by decide) (by decide) (by decide))

/-- Counterexample to C5 as stated: when the new password equals the old
password, the operation succeeds and the saved credential still compares
`true` with the old password, not `false` as the claim requires. -/
theorem updateAdminPassword_same_password_cex :
    let u : User := { id := 1, username := "a", password := "pw", role := .admin, deleted := false }
    ExistsAdmin (some u) = true ∧ u.ComparePassword "pw" = true ∧
    (UpdateAdminPassword (.ok (some u)) "pw" "pw" (.ok ())).err = none ∧
    ∃ v, (UpdateAdminPassword (.ok (some u)) "pw" "pw" (.ok ())).savedUser = some v ∧
      v.ComparePassword "pw" = true := by
  refine ⟨by decide, by decide, by decide, ⟨_, rfl, by decide⟩⟩

/-- C1: when the duplicate check passes, `CreateAdminUser` writes the new
User and its Manager atomically: if either concurrent save inside the
transaction fails the store is left unchanged and an error is returned;
if both succeed, both entities are retrievable from the store. -/
theorem createAdminUser_transaction_atomic
    (lookupRes : Except Nat (Option User)) (genId : Nat)
    (name email password nickname : String) (s1 s2 : Except Nat Unit) (st : Store)
    (hdup : ptrOf lookupRes = none) :
    ((s1 ≠ .ok () ∨ s2 ≠ .ok ()) →
      (CreateAdminUser lookupRes genId name email password nickname s1 s2 st).2 = st ∧
      (CreateAdminUser lookupRes genId name email password nickname s1 s2 st).1.err ≠ none) ∧
    (s1 = .ok () → s2 = .ok () →
      (CreateAdminUser lookupRes genId name email password nickname s1 s2 st).1.err = none ∧
      (CreateAdminUser lookupRes genId name email password nickname s1 s2 st).2.getById genId =
        some (createUser .admin email password genId) ∧
      (CreateAdminUser lookupRes genId name email password nickname s1 s2 st).2.getManagerById genId =
        some (CreateManager (createUser .admin email password genId) name nickname)) := by
  unfold CreateAdminUser
  rw [hdup]
  constructor
  · intro hbad
    rcases s1 with n | v1
    · exact ⟨rfl, by simp⟩
    · rcases s2 with n | v2
      · exact ⟨rfl, by simp⟩
      · cases v1; cases v2
        rcases hbad with hbad | hbad <;> exact absurd rfl hbad
  · intro h1 h2
    subst h1; subst h2
    refine ⟨rfl, ?_, ?_⟩
    · show ((st.saveUser _).saveManager _).getById genId = _
      unfold Store.getById
      rw [Store.users_saveManager]
      exact Store.getById_saveUser st (createUser .admin email password genId)
    · exact Store.getManagerById_saveManager (st.saveUser (createUser .admin email password genId))
        (CreateManager (createUser .admin email password genId) name nickname)

/-- Closed witness for `createAdminUser_transaction_atomic`. -/
theorem createAdminUser_transaction_atomic_witness :
    let st : Store := { users := [], managers := [] }
    ((CreateAdminUser (.ok none) 7 "Kim" "a@b.c" "Pw1" "K" (.error 3) (.ok ()) st).2 = st ∧
      (CreateAdminUser (.ok none) 7 "Kim" "a@b.c" "Pw1" "K" (.error 3) (.ok ()) st).1.err ≠ none) ∧
    ((CreateAdminUser (.ok none) 7 "Kim" "a@b.c" "Pw1" "K" (.ok ()) (.ok ()) st).1.err = none ∧
      (CreateAdminUser (.ok none) 7 "Kim" "a@b.c" "Pw1" "K" (.ok ()) (.ok ()) st).2.getById 7 =
        some (createUser .admin "a@b.c" "Pw1" 7) ∧
      (CreateAdminUser (.ok none) 7 "Kim" "a@b.c" "Pw1" "K" (.ok ()) (.ok ()) st).2.getManagerById 7 =
        some (CreateManager (createUser .admin "a@b.c" "Pw1" 7) "Kim" "K")) := by
  intro st
  exact ⟨(createAdminUser_transaction_atomic (.ok none) 7 "Kim" "a@b.c" "Pw1" "K"
      (.error 3) (.ok ()) st rfl).1 (Or.inl (by simp)),
    (createAdminUser_transaction_atomic (.ok none) 7 "Kim" "a@b.c" "Pw1" "K"
      (.ok ()) (.ok ()) st rfl).2 rfl rfl⟩

/-- C10: `CreateCustomerUser`, and `CreateAdminUser` once its duplicate
check has passed, return the id generated for the fresh user even when the
transactional save fails: the caller receives the non-zero generated id
together with the error. -/
theorem create_returns_generated_id
    (genId : Nat) (email mobile : String) (n : Nat) (st : Store)
    (name password nickname : String) (s2 sv : Except Nat Unit)
    (lookupRes : Except Nat (Option User))
    (hdup : ptrOf lookupRes = none) (hgen : genId ≠ 0) :
    (CreateCustomerUser genId email mobile sv st).1.newId = genId ∧
    (CreateCustomerUser genId email mobile (.error n) st).1.err = some (.other n) ∧
    (CreateCustomerUser genId email mobile (.error n) st).1.newId ≠ 0 ∧
    (CreateAdminUser lookupRes genId name email password nickname sv s2 st).1.newId = genId ∧
    (CreateAdminUser lookupRes genId name email password nickname (.error n) s2 st).1.err =
      some (.other n) ∧
    (CreateAdminUser lookupRes genId name email password nickname (.error n) s2 st).1.newId ≠ 0 := by
  refine ⟨?_, rfl, ?_, ?_, ?_, ?_⟩
  · cases sv <;> rfl
  · show genId ≠ 0
    exact hgen
  · unfold CreateAdminUser
    rw [hdup]
    rcases sv with m | v
    · rfl
    · cases s2 <;> rfl
  · unfold CreateAdminUser
    rw [hdup]
  · unfold CreateAdminUser
    rw [hdup]
    exact hgen

/-- Closed witness for `create_returns_generated_id`. -/
theorem create_returns_generated_id_witness :
    let st : Store := { users := [], managers := [] }
    (CreateCustomerUser 5 "a@b.c" "0101" (.error 9) st).1.newId = 5 ∧
    (CreateCustomerUser 5 "a@b.c" "0101" (.error 9) st).1.err = some (.other 9) ∧
    (CreateAdminUser (.ok none) 5 "Kim" "a@b.c" "Pw1" "K" (.error 9) (.ok ()) st).1.newId = 5 ∧
    (CreateAdminUser (.ok none) 5 "Kim" "a@b.c" "Pw1" "K" (.error 9) (.ok ()) st).1.err =
      some (.other 9) := by
  intro st
  have h := create_returns_generated_id 5 "a@b.c" "0101" 9 st "Kim" "Pw1" "K"
    (.ok ()) (.error 9) (.ok none) (by decide) (by decide)
  exact ⟨h.1, h.2.1, h.2.2.2.1, h.2.2.2.2.1⟩

/-- C4: deleting twice fails the second time with `ItemNotFound`: a
soft-deleted user is excluded from the deletable Customer set (the
`IsCustomer` business rule), and `DeleteAdminUser`'s already-deleted guard
rejects a soft-deleted admin. -/
theorem delete_twice_not_found
    (st1 st2 : Store) (id1 id2 : Nat) (u1 u2 : User)
    (h1 : st1.getById id1 = some u1) (hc : u1.IsCustomer = true)
    (h2 : st2.getById id2 = some u2) (ha : u2.IsAdmin = true)
    (hd : u2.IsDeleted = false) :
    (DeleteCustomerUserS st1 id1).1 = none ∧
    (DeleteCustomerUserS (DeleteCustomerUserS st1 id1).2 id1).1 = some .itemNotFound ∧
    (DeleteAdminUserS st2 id2).1 = none ∧
    (DeleteAdminUserS (DeleteAdminUserS st2 id2).2 id2).1 = some .itemNotFound := by
  have hid1 : u1.id = id1 := by
    have := List.find?_some h1
    simpa using this
  have hid2 : u2.id = id2 := by
    have := List.find?_some h2
    simpa using this
  have hstep1 : (DeleteCustomerUserS st1 id1).2 = st1.saveUser u1.Delete := by
    simp [DeleteCustomerUserS, DeleteCustomerUser, ptrOf, h1, hc]
  have hget1 : (st1.saveUser u1.Delete).getById id1 = some u1.Delete := by
    have := Store.getById_saveUser st1 u1.Delete
    rwa [show u1.Delete.id = id1 from hid1] at this
  have hd' : u2.deleted = false := hd
  have hstep2 : (DeleteAdminUserS st2 id2).2 = st2.saveUser u2.Delete := by
    simp [DeleteAdminUserS, DeleteAdminUser, ptrOf, h2, ha, hd', User.IsDeleted]
  have hget2 : (st2.saveUser u2.Delete).getById id2 = some u2.Delete := by
    have := Store.getById_saveUser st2 u2.Delete
    rwa [show u2.Delete.id = id2 from hid2] at this
  refine ⟨?_, ?_, ?_, ?_⟩
  · simp [DeleteCustomerUserS, DeleteCustomerUser, ptrOf, h1, hc]
  · rw [hstep1]
    simp only [DeleteCustomerUserS, DeleteCustomerUser, ptrOf, hget1]
    simp [User.IsCustomer, User.Delete]
  · simp [DeleteAdminUserS, DeleteAdminUser, ptrOf, h2, ha, hd', User.IsDeleted]
  · rw [hstep2]
    simp only [DeleteAdminUserS, DeleteAdminUser, ptrOf, hget2]
    simp [User.IsDeleted, User.Delete]

/-- Closed witness for `delete_twice_not_found`: a store with one active
customer and one with one active admin. -/
theorem delete_twice_not_found_witness :
    let u1 : User := { id := 1, username := "c", password := "p", role := .customer, deleted := false }
    let u2 : User := { id := 2, username := "a", password := "q", role := .admin, deleted := false }
    let st1 : Store := { users := [u1], managers := [] }
    let st2 : Store := { users := [u2], managers := [] }
    (DeleteCustomerUserS st1 1).1 = none ∧
    (DeleteCustomerUserS (DeleteCustomerUserS st1 1).2 1).1 = some .itemNotFound ∧
    (DeleteAdminUserS st2 2).1 = none ∧
    (DeleteAdminUserS (DeleteAdminUserS st2 2).2 2).1 = some .itemNotFound := by
  exact delete_twice_not_found
    { users := [{ id := 1, username := "c", password := "p", role := .customer, deleted := false }], managers := [] }
    { users := [{ id := 2, username := "a", password := "q", role := .admin, deleted := false }], managers := [] }
    1 2
    { id := 1, username := "c", password := "p", role := .customer, deleted := false }
    { id := 2, username := "a", password := "q", role := .admin, deleted := false }
    (by decide) (by decide) (by decide) (by decide) (by decide)

/-- C7: `UpdateAdminInfo` and `ForceUpdateAdminInfoBySuperAdmin` fail with
`ItemAlreadyExist` exactly when the username lookup finds a user whose id
differs from the target's; when the found owner is the target itself no
conflict error is possible. -/
theorem adminInfo_conflict_iff
    (userId : Nat) (username name nickname pw : String)
    (byUsername byId : Except Nat (Option User)) (loadRes : Except Nat Manager)
    (s1 s2 : Except Nat Unit) :
    ((UpdateAdminInfo userId username name nickname byUsername byId loadRes s1 s2).err =
        some .itemAlreadyExist ↔
      ∃ ex, byUsername = .ok (some ex) ∧ ex.id ≠ userId) ∧
    ((ForceUpdateAdminInfoBySuperAdmin userId username name nickname pw
          byUsername byId loadRes s1 s2).err = some .itemAlreadyExist ↔
      ∃ ex, byUsername = .ok (some ex) ∧ ex.id ≠ userId) := by
  constructor
  · rcases byUsername with k | found
    · simp [UpdateAdminInfo]
    · rcases found with _ | ex
      · rcases byId with k | user?
        · simp [UpdateAdminInfo]
        · rcases user? with _ | u
          · simp [UpdateAdminInfo, ExistsAdmin]
          · cases hex : ExistsAdmin (some u) <;>
              rcases loadRes with k | mg <;>
              rcases s1 with k1 | v1 <;>
              rcases s2 with k2 | v2 <;>
              simp [UpdateAdminInfo, hex]
      · by_cases hb : ex.id = userId
        · cases hex : ExistsAdmin (some ex) <;>
            rcases loadRes with k | mg <;>
            rcases s1 with k1 | v1 <;>
            rcases s2 with k2 | v2 <;>
            simp [UpdateAdminInfo, hex, hb]
        · simp [UpdateAdminInfo, beq_iff_eq, hb]
  · rcases byUsername with k | found
    · simp [ForceUpdateAdminInfoBySuperAdmin]
    · rcases found with _ | ex
      · rcases byId with k | user?
        · simp [ForceUpdateAdminInfoBySuperAdmin]
        · rcases user? with _ | u
          · simp [ForceUpdateAdminInfoBySuperAdmin, ExistsAdmin]
          · cases hex : ExistsAdmin (some u) <;>
              rcases loadRes with k | mg <;>
              rcases s1 with k1 | v1 <;>
              rcases s2 with k2 | v2 <;>
              simp [ForceUpdateAdminInfoBySuperAdmin, hex]
      · by_cases hb : ex.id = userId
        · cases hex : ExistsAdmin (some ex) <;>
            rcases loadRes with k | mg <;>
            rcases s1 with k1 | v1 <;>
            rcases s2 with k2 | v2 <;>
            simp [ForceUpdateAdminInfoBySuperAdmin, hex, hb]
        · simp [ForceUpdateAdminInfoBySuperAdmin, beq_iff_eq, hb]

/-- C8: in `UpdateAdminInfo` and `ForceUpdateAdminInfoBySuperAdmin` the two
concurrent saves both determine the result: success is returned only when
both saves succeed (over every path), and on a path that reaches the saves
the result is success exactly when both saves succeed. -/
theorem adminInfo_both_saves_required
    (userId : Nat) (username name nickname pw : String)
    (byUsername byId : Except Nat (Option User)) (loadRes : Except Nat Manager)
    (s1 s2 : Except Nat Unit) (u : User) (m : Manager)
    (hadm : ExistsAdmin (some u) = true) :
    ((UpdateAdminInfo userId username name nickname byUsername byId loadRes s1 s2).err = none →
      s1 = .ok () ∧ s2 = .ok ()) ∧
    ((ForceUpdateAdminInfoBySuperAdmin userId username name nickname pw
          byUsername byId loadRes s1 s2).err = none →
      s1 = .ok () ∧ s2 = .ok ()) ∧
    ((UpdateAdminInfo userId username name nickname (.ok none) (.ok (some u))
          (.ok m) s1 s2).err = none ↔ (s1 = .ok () ∧ s2 = .ok ())) ∧
    ((ForceUpdateAdminInfoBySuperAdmin userId username name nickname pw (.ok none)
          (.ok (some u)) (.ok m) s1 s2).err = none ↔ (s1 = .ok () ∧ s2 = .ok ())) := by
  refine ⟨?_, ?_, ?_, ?_⟩
  · rcases byUsername with k | found
    · simp [UpdateAdminInfo]
    · rcases found with _ | ex
      · rcases byId with k | user?
        · simp [UpdateAdminInfo]
        · rcases user? with _ | v
          · simp [UpdateAdminInfo, ExistsAdmin]
          · cases hex : ExistsAdmin (some v) <;>
              rcases loadRes with k | mg <;>
              rcases s1 with k1 | v1 <;>
              rcases s2 with k2 | v2 <;>
              simp [UpdateAdminInfo, hex]
      · by_cases hb : ex.id = userId
        · cases hex : ExistsAdmin (some ex) <;>
            rcases loadRes with k | mg <;>
            rcases s1 with k1 | v1 <;>
            rcases s2 with k2 | v2 <;>
            simp [UpdateAdminInfo, hex, hb]
        · simp [UpdateAdminInfo, beq_iff_eq, hb]
  · rcases byUsername with k | found
    · simp [ForceUpdateAdminInfoBySuperAdmin]
    · rcases found with _ | ex
      · rcases byId with k | user?
        · simp [ForceUpdateAdminInfoBySuperAdmin]
        · rcases user? with _ | v
          · simp [ForceUpdateAdminInfoBySuperAdmin, ExistsAdmin]
          · cases hex : ExistsAdmin (some v) <;>
              rcases loadRes with k | mg <;>
              rcases s1 with k1 | v1 <;>
              rcases s2 with k2 | v2 <;>
              simp [ForceUpdateAdminInfoBySuperAdmin, hex]
      · by_cases hb : ex.id = userId
        · cases hex : ExistsAdmin (some ex) <;>
            rcases loadRes with k | mg <;>
            rcases s1 with k1 | v1 <;>
            rcases s2 with k2 | v2 <;>
            simp [ForceUpdateAdminInfoBySuperAdmin, hex, hb]
        · simp [ForceUpdateAdminInfoBySuperAdmin, beq_iff_eq, hb]
  · rcases s1 with k1 | v1 <;> rcases s2 with k2 | v2 <;>
      simp [UpdateAdminInfo, hadm]
  · rcases s1 with k1 | v1 <;> rcases s2 with k2 | v2 <;>
      simp [ForceUpdateAdminInfoBySuperAdmin, hadm]

/-- Closed witness for `adminInfo_both_saves_required`: an admin user, one
failing and one succeeding save combination. -/
theorem adminInfo_both_saves_required_witness :
    let u : User := { id := 3, username := "a", password := "p", role := .admin, deleted := false }
    let m : Manager := { userId := 3, name := "n", nickname := "k", username := "a" }
    ExistsAdmin (some u) = true ∧
    ((UpdateAdminInfo 3 "b" "n2" "k2" (.ok none) (.ok (some u)) (.ok m)
        (.error 4) (.ok ())).err = none ↔ ((.error 4 : Except Nat Unit) = .ok () ∧
          (.ok () : Except Nat Unit) = .ok ())) ∧
    ((ForceUpdateAdminInfoBySuperAdmin 3 "b" "n2" "k2" "pw2" (.ok none) (.ok (some u)) (.ok m)
        (.ok ()) (.ok ())).err = none ↔ ((.ok () : Except Nat Unit) = .ok () ∧
          (.ok () : Except Nat Unit) = .ok ())) := by
  refine ⟨by decide, ?_, ?_⟩
  · exact (adminInfo_both_saves_required 3 "b" "n2" "k2" "pw2" (.ok none) (.ok none) (.ok
      { userId := 3, name := "n", nickname := "k", username := "a" }) (.error 4) (.ok ())
      { id := 3, username := "a", password := "p", role := .admin, deleted := false }
      { userId := 3, name := "n", nickname := "k", username := "a" } (by decide)).2.2.1
  · exact (adminInfo_both_saves_required 3 "b" "n2" "k2" "pw2" (.ok none) (.ok none) (.ok
      { userId := 3, name := "n", nickname := "k", username := "a" }) (.ok ()) (.ok ())
      { id := 3, username := "a", password := "p", role := .admin, deleted := false }
      { userId := 3, name := "n", nickname := "k", username := "a" } (by decide)).2.2.2

end EditFolio
